import Mathlib

/-!
Shallow embedding of the isp-local hotspot agent (src/app.py, src/mikrotik.py):
the time-duration codec, the session-manager operations on device state, the
login error classifier, the command interpreter and one poll iteration, with
theorems checking the specified behaviour.
-/

namespace IspLocal

/-! ### Time-duration codec: Mikrotik._parse_mikrotik_time (src/mikrotik.py:117-126) -/

/-- Seconds multiplier of a duration unit character; models the dict
`time_units` at src/mikrotik.py:122 (`none` for a character outside the
regex class `[wdhms]`). -/
def timeUnits (c : Char) : Option Nat :=
  if c = 'w' then some 604800
  else if c = 'd' then some 86400
  else if c = 'h' then some 3600
  else if c = 'm' then some 60
  else if c = 's' then some 1
  else none

/-- Scanner equivalent to `re.findall(r'(\d+)([wdhms])', time_str)`
(src/mikrotik.py:123): a match is a maximal run of digits immediately
followed by a unit character; everything else is skipped. The accumulator
holds the numeric value of the digit run currently being read. -/
def scanTokens : List Char → Option Nat → List (Nat × Char)
  | [], _ => []
  | c :: cs, acc =>
    if c.isDigit then
      scanTokens cs (some (acc.getD 0 * 10 + (c.toNat - 48)))
    else
      match acc with
      | some n =>
        match timeUnits c with
        | some _ => (n, c) :: scanTokens cs none
        | none => scanTokens cs none
      | none => scanTokens cs none

/-- Contribution of one matched token: `int(num) * time_units[unit]`
(src/mikrotik.py:125). -/
def tokenSeconds (t : Nat × Char) : Nat := t.1 * (timeUnits t.2).getD 0

/-- Models `Mikrotik._parse_mikrotik_time` (src/mikrotik.py:117-126): fast
path for the literal "0s", otherwise the sum of the matched tokens. -/
def parse_mikrotik_time (s : String) : Nat :=
  if s = "0s" then 0
  else ((scanTokens s.data none).map tokenSeconds).sum

theorem scanTokens_of_junk (t : List Char) (acc : Option Nat)
    (h : ∀ c ∈ t, c.isDigit = false ∧ timeUnits c = none) :
    scanTokens t acc = [] := by
  induction t generalizing acc with
  | nil => cases acc <;> rfl
  | cons c cs ih =>
    have hc := h c (List.mem_cons_self c cs)
    have hrest : ∀ x ∈ cs, x.isDigit = false ∧ timeUnits x = none :=
      fun x hx => h x (List.mem_cons_of_mem c hx)
    cases acc with
    | none => simp only [scanTokens, hc.1, if_false]; exact ih none hrest
    | some n =>
      simp only [scanTokens, hc.1, if_false, hc.2]
      exact ih none hrest

theorem scanTokens_append_junk (l t : List Char) (acc : Option Nat)
    (h : ∀ c ∈ t, c.isDigit = false ∧ timeUnits c = none) :
    scanTokens (l ++ t) acc = scanTokens l acc := by
  induction l generalizing acc with
  | nil => simpa using scanTokens_of_junk t acc h
  | cons c cs ih =>
    by_cases hd : c.isDigit
    · simp only [List.cons_append, scanTokens, hd, if_true]
      exact ih _
    · simp only [Bool.not_eq_true] at hd
      cases acc with
      | none =>
        simp only [List.cons_append, scanTokens, hd, if_false]
        exact ih none
      | some n =>
        simp only [List.cons_append, scanTokens, hd, Bool.false_eq_true, if_false]
        cases hu : timeUnits c with
        | none => simp only [hu]; exact ih none
        | some m => simp only [hu]; exact congrArg (fun l => (n, c) :: l) (ih none)

theorem scanTokens_nondigit_front (t l : List Char)
    (h : ∀ c ∈ t, c.isDigit = false) :
    scanTokens (t ++ l) none = scanTokens l none := by
  induction t with
  | nil => rfl
  | cons c cs ih =>
    have hc := h c (List.mem_cons_self c cs)
    have hrest : ∀ x ∈ cs, x.isDigit = false :=
      fun x hx => h x (List.mem_cons_of_mem c hx)
    simp only [List.cons_append, scanTokens, hc, if_false]
    exact ih hrest

theorem parse_mikrotik_time_eq_sum (s : String) :
    parse_mikrotik_time s = ((scanTokens s.data none).map tokenSeconds).sum := by
  unfold parse_mikrotik_time
  by_cases h : s = "0s"
  · subst h; decide
  · rw [if_neg h]

/-! ### Login error classifier (src/mikrotik.py:271-287) -/

/-- Lowercased character list of a string, modelling `str.lower()` on the
ASCII messages the device produces. -/
def lowerChars (s : String) : List Char :=
  s.data.map Char.toLower

/-- Boolean substring containment, modelling the Python `in` operator on
strings (needle against an already lowercased character list). -/
def strContainsSub (hay : List Char) (needle : String) : Bool :=
  decide (needle.data <:+: hay)

/-- Outcome of the `except` classifier of `Mikrotik.login_user`
(src/mikrotik.py:271-287). `reAddUser` models `raise self.ReAddUserError`,
`userNotFound` and `unknownHost` the two freshly raised exceptions,
`connectionPropagated` the bare re-raise of the connection-refused branch,
`loginFailed` the bare re-raise of the final else branch (raw message
preserved). -/
inductive LoginFailure where
  | reAddUser (msg : String)
  | userNotFound (msg : String)
  | connectionPropagated (msg : String)
  | unknownHost (msg : String)
  | loginFailed (msg : String)
deriving DecidableEq, Repr

/-- Models the branch ladder at src/mikrotik.py:272-287: the raised error
message is lowercased and matched against fixed substrings, in order. -/
def classify_login_error (mac ip msg : String) : LoginFailure :=
  let m := lowerChars msg
  if strContainsSub m "your uptime limit reached" then
    .reAddUser "Readd user"
  else if strContainsSub m "no such user" then
    .userNotFound ("User not found: " ++ mac)
  else if strContainsSub m "connection refused" then
    .connectionPropagated msg
  else if strContainsSub m "unknown host" then
    .unknownHost ("Unknown host IP: " ++ ip)
  else
    .loginFailed msg

/-! ### Claim C9 -/

/-- C9: the duration codec satisfies parse "0s" = 0 (fast path),
parse "2h30m" = 9000, parse "1w" = 604800 and parse "" = 0; and substrings
that are not well-formed integer-unit tokens contribute nothing to the
returned sum: prepending characters that are not digits, or appending
characters that are neither digits nor unit letters, leaves the result
unchanged, so such material contributes zero seconds. -/
theorem claim_C9_duration_codec :
    parse_mikrotik_time "0s" = 0 ∧
    parse_mikrotik_time "2h30m" = 9000 ∧
    parse_mikrotik_time "1w" = 604800 ∧
    parse_mikrotik_time "" = 0 ∧
    (∀ s t : String, (∀ c ∈ t.data, c.isDigit = false) →
      parse_mikrotik_time (t ++ s) = parse_mikrotik_time s) ∧
    (∀ s t : String, (∀ c ∈ t.data, c.isDigit = false ∧ timeUnits c = none) →
      parse_mikrotik_time (s ++ t) = parse_mikrotik_time s) := by
  refine ⟨by decide, by decide, by decide, by decide, ?_, ?_⟩
  · intro s t h
    rw [parse_mikrotik_time_eq_sum, parse_mikrotik_time_eq_sum, String.data_append,
      scanTokens_nondigit_front t.data s.data h]
  · intro s t h
    rw [parse_mikrotik_time_eq_sum, parse_mikrotik_time_eq_sum, String.data_append,
      scanTokens_append_junk s.data t.data none h]

/-- Witness for C9 at concrete junk material. -/
theorem claim_C9_duration_codec_witness :
    (∀ c ∈ "xy?!".data, c.isDigit = false ∧ timeUnits c = none) ∧
    parse_mikrotik_time ("2h30m" ++ "xy?!") = parse_mikrotik_time "2h30m" :=
  ⟨by decide, claim_C9_duration_codec.2.2.2.2.2 "2h30m" "xy?!" (by decide)⟩

/-! ### Claim C3 -/

/-- C3 counterexample: the raised message "uptime limit reached" contains
the substring "uptime limit" in lowercase form, yet the classifier sends it
to the final else branch (raw-message re-raise), not to the re-add signal:
the code matches the longer literal "your uptime limit reached". -/
theorem claim_C3_counterexample :
    strContainsSub (lowerChars "uptime limit reached") "uptime limit" = true ∧
    classify_login_error "AA:BB:CC:DD:EE:FF" "10.0.0.5" "uptime limit reached" =
      .loginFailed "uptime limit reached" :=
  ⟨by decide, by decide⟩

/-- C3 amended: the re-add branch fires exactly on messages whose lowercase
form contains "your uptime limit reached" (not the bare "uptime limit");
then, in order of precedence, "no such user" raises the user-not-found
exception, "connection refused" re-raises the original error,
"unknown host" raises the unknown-host exception, and any other failure is
re-raised with the raw message preserved. -/
theorem claim_C3_login_error_classification (mac ip msg : String) :
    (strContainsSub (lowerChars msg) "your uptime limit reached" = true →
      classify_login_error mac ip msg = .reAddUser "Readd user") ∧
    (strContainsSub (lowerChars msg) "your uptime limit reached" = false →
     strContainsSub (lowerChars msg) "no such user" = true →
      classify_login_error mac ip msg = .userNotFound ("User not found: " ++ mac)) ∧
    (strContainsSub (lowerChars msg) "your uptime limit reached" = false →
     strContainsSub (lowerChars msg) "no such user" = false →
     strContainsSub (lowerChars msg) "connection refused" = true →
      classify_login_error mac ip msg = .connectionPropagated msg) ∧
    (strContainsSub (lowerChars msg) "your uptime limit reached" = false →
     strContainsSub (lowerChars msg) "no such user" = false →
     strContainsSub (lowerChars msg) "connection refused" = false →
     strContainsSub (lowerChars msg) "unknown host" = true →
      classify_login_error mac ip msg = .unknownHost ("Unknown host IP: " ++ ip)) ∧
    (strContainsSub (lowerChars msg) "your uptime limit reached" = false →
     strContainsSub (lowerChars msg) "no such user" = false →
     strContainsSub (lowerChars msg) "connection refused" = false →
     strContainsSub (lowerChars msg) "unknown host" = false →
      classify_login_error mac ip msg = .loginFailed msg) := by
  refine ⟨fun h1 => ?_, fun h1 h2 => ?_, fun h1 h2 h3 => ?_,
    fun h1 h2 h3 h4 => ?_, fun h1 h2 h3 h4 => ?_⟩ <;>
    simp only [classify_login_error, h1, if_true, Bool.false_eq_true, if_false]
  · rw [if_pos h2]
  · rw [if_neg (by simp [h2]), if_pos h3]
  · rw [if_neg (by simp [h2]), if_neg (by simp [h3]), if_pos h4]
  · rw [if_neg (by simp [h2]), if_neg (by simp [h3]), if_neg (by simp [h4])]

/-- Witness for C3 amended: a capitalised device message carrying the full
uptime-limit phrase is classified as the re-add signal. -/
theorem claim_C3_login_error_classification_witness :
    strContainsSub (lowerChars "Your Uptime Limit Reached!") "your uptime limit reached" = true ∧
    classify_login_error "AA:BB" "10.0.0.5" "Your Uptime Limit Reached!" =
      .reAddUser "Readd user" :=
  ⟨by decide,
    (claim_C3_login_error_classification "AA:BB" "10.0.0.5" "Your Uptime Limit Reached!").1
      (by decide)⟩

/-! ### Device state and session-manager operations (src/mikrotik.py) -/

/-- Hotspot user account record as read from the device user resource,
with the fields the code touches; `uptime` and `limitUptime` model the
optional `uptime` and `limit-uptime` fields, read with default "0s". -/
structure MtUser where
  id : Nat
  name : String
  password : String
  profile : String
  uptime : Option String
  limitUptime : Option String
deriving DecidableEq, Repr

/-- Device user table together with the id the device will assign to the
next added record. -/
structure MtState where
  users : List MtUser
  nextId : Nat
deriving DecidableEq, Repr

/-- Models `Mikrotik.remove_existing_user` (src/mikrotik.py:128-152): look
the account up by name; when at least one record exists, issue one remove
call for the first match and return true, otherwise return false. Result:
(returned bool, new device state, number of remove calls issued). -/
def remove_existing_user (s : MtState) (username : String) :
    Bool × MtState × Nat :=
  match s.users.filter (fun u => u.name == username) with
  | [] => (false, s, 0)
  | u :: _ =>
    (true, { s with users := s.users.filter (fun v => v.id != u.id) }, 1)

/-- Models `Mikrotik.add_user` (src/mikrotik.py:203-218): first remove any
existing account of the same name, then unconditionally issue one create
call with the fixed default profile and the given limit. Result:
(new device state, remove calls issued, create calls issued). -/
def add_user (s : MtState) (username password time : String) :
    MtState × Nat × Nat :=
  let r := remove_existing_user s username
  let s1 := r.2.1
  let newUser : MtUser :=
    { id := s1.nextId, name := username, password := password,
      profile := "default", uptime := none, limitUptime := some time }
  ({ users := s1.users ++ [newUser], nextId := s1.nextId + 1 }, r.2.2, 1)

/-- Models `Mikrotik.user_exists` (src/mikrotik.py:180-201): look the
account up by name; when present, decode `uptime` and `limit-uptime` with
the codec (default "0s"); if the limit is nonzero and the uptime has
reached it, remove the account (one remove call) and return false;
otherwise return true. An absent account yields false with no remove.
Result: (returned bool, new device state, remove calls issued). -/
def user_exists (s : MtState) (username : String) : Bool × MtState × Nat :=
  match s.users.filter (fun u => u.name == username) with
  | [] => (false, s, 0)
  | u :: _ =>
    let uptime := parse_mikrotik_time (u.uptime.getD "0s")
    let limit := parse_mikrotik_time (u.limitUptime.getD "0s")
    if limit ≠ 0 ∧ uptime ≥ limit then
      (false, { s with users := s.users.filter (fun v => v.id != u.id) }, 1)
    else (true, s, 0)

/-- Active hotspot session record, with the fields the code touches. -/
structure MtSession where
  id : Option String
  macAddress : String
deriving DecidableEq, Repr

/-- Removal loop of `Mikrotik.remove_active_session_by_mac`
(src/mikrotik.py:58-66) under an oracle giving each remove call's outcome
(`none` is success, `some msg` a raised error). A raised error propagates
to the enclosing handler, which returns false, so the loop stops at the
first failure; sessions with no id are skipped with a warning. Result:
(returned bool, ids of the remove calls attempted, in order). -/
def removeSessionsLoop (oracle : String → Option String) :
    List MtSession → Bool × List String
  | [] => (true, [])
  | sess :: rest =>
    match sess.id with
    | none => removeSessionsLoop oracle rest
    | some sid =>
      match oracle sid with
      | none =>
        let r := removeSessionsLoop oracle rest
        (r.1, sid :: r.2)
      | some _ => (false, [sid])

/-- Models `Mikrotik.remove_active_session_by_mac` (src/mikrotik.py:35-72):
filter the active-session table by MAC address (case-insensitive), return
true when nothing matches, otherwise remove each matching session in turn,
answering false as soon as a remove call raises. -/
def remove_active_session_by_mac (sessions : List MtSession) (mac : String)
    (oracle : String → Option String) : Bool × List String :=
  let matching := sessions.filter
    (fun s => lowerChars s.macAddress == lowerChars mac)
  if matching.isEmpty then (true, [])
  else removeSessionsLoop oracle matching

theorem removeSessionsLoop_all_ok (oracle : String → Option String)
    (l : List MtSession)
    (h : ∀ sess ∈ l, ∀ sid, sess.id = some sid → oracle sid = none) :
    removeSessionsLoop oracle l = (true, l.filterMap (fun s => s.id)) := by
  induction l with
  | nil => rfl
  | cons sess rest ih =>
    have hrest : ∀ x ∈ rest, ∀ sid, x.id = some sid → oracle sid = none :=
      fun x hx => h x (List.mem_cons_of_mem sess hx)
    cases hid : sess.id with
    | none =>
      simp only [removeSessionsLoop, hid, List.filterMap_cons, ih hrest]
    | some sid =>
      have hok := h sess (List.mem_cons_self sess rest) sid hid
      simp only [removeSessionsLoop, hid, hok, List.filterMap_cons, ih hrest]

theorem removeSessionsLoop_abort (oracle : String → Option String)
    (pre : List MtSession) (f : MtSession) (post : List MtSession)
    (fid : String)
    (hpre : ∀ sess ∈ pre, ∀ sid, sess.id = some sid → oracle sid = none)
    (hf : f.id = some fid) (hfail : oracle fid ≠ none) :
    removeSessionsLoop oracle (pre ++ f :: post) =
      (false, pre.filterMap (fun s => s.id) ++ [fid]) := by
  induction pre with
  | nil =>
    cases hor : oracle fid with
    | none => exact absurd hor hfail
    | some m => simp only [List.nil_append, removeSessionsLoop, hf, hor,
        List.filterMap_nil]
  | cons sess rest ih =>
    have hrest : ∀ x ∈ rest, ∀ sid, x.id = some sid → oracle sid = none :=
      fun x hx => hpre x (List.mem_cons_of_mem sess hx)
    cases hid : sess.id with
    | none =>
      simp only [List.cons_append, List.append_eq, removeSessionsLoop, hid,
        List.filterMap_cons, ih hrest]
    | some sid =>
      have hok := hpre sess (List.mem_cons_self sess rest) sid hid
      simp only [List.cons_append, List.append_eq, removeSessionsLoop, hid, hok,
        List.filterMap_cons, ih hrest]

/-! ### Claim C4 -/

/-- C4: for an account whose decoded uptime limit is nonzero and whose
decoded uptime has reached it, user_exists removes the account (one remove
call) and returns false; for an existing account not meeting that
condition it returns true with no remove; for an absent account it returns
false with no remove. -/
theorem claim_C4_account_expiry (s : MtState) (username : String) :
    (s.users.filter (fun u => u.name == username) = [] →
      user_exists s username = (false, s, 0)) ∧
    (∀ u rest, s.users.filter (fun u => u.name == username) = u :: rest →
      ((parse_mikrotik_time (u.limitUptime.getD "0s") ≠ 0 ∧
        parse_mikrotik_time (u.uptime.getD "0s") ≥
          parse_mikrotik_time (u.limitUptime.getD "0s")) →
        user_exists s username =
          (false,
            { s with users := s.users.filter (fun v => v.id != u.id) }, 1)) ∧
      (¬(parse_mikrotik_time (u.limitUptime.getD "0s") ≠ 0 ∧
         parse_mikrotik_time (u.uptime.getD "0s") ≥
           parse_mikrotik_time (u.limitUptime.getD "0s")) →
        user_exists s username = (true, s, 0))) := by
  refine ⟨fun h => ?_, fun u rest h => ⟨fun hc => ?_, fun hc => ?_⟩⟩ <;>
    simp only [user_exists, h]
  · rw [if_pos hc]
  · rw [if_neg hc]

def mtUserC4 : MtUser :=
  { id := 7, name := "cc:dd", password := "cc:dd", profile := "default",
    uptime := some "5m", limitUptime := some "4m" }

def stateC4 : MtState := { users := [mtUserC4], nextId := 8 }

/-- Witness for C4: a concrete account with uptime 5m against limit 4m is
reaped: user_exists answers false and issues the one remove call. -/
theorem claim_C4_account_expiry_witness :
    stateC4.users.filter (fun u => u.name == "cc:dd") = [mtUserC4] ∧
    (parse_mikrotik_time (mtUserC4.limitUptime.getD "0s") ≠ 0 ∧
     parse_mikrotik_time (mtUserC4.uptime.getD "0s") ≥
       parse_mikrotik_time (mtUserC4.limitUptime.getD "0s")) ∧
    user_exists stateC4 "cc:dd" =
      (false,
        { stateC4 with
            users := stateC4.users.filter (fun v => v.id != mtUserC4.id) }, 1) :=
  ⟨by decide, ⟨by decide, by decide⟩,
    ((claim_C4_account_expiry stateC4 "cc:dd").2 mtUserC4 [] (by decide)).1
      ⟨by decide, by decide⟩⟩

/-! ### Claim C2 -/

def mtUserC2 : MtUser :=
  { id := 0, name := "aa:bb", password := "pw", profile := "default",
    uptime := some "0s", limitUptime := some "5m" }

def stateC2 : MtState := { users := [mtUserC2], nextId := 1 }

/-- C2 counterexample: with an unexpired account present (user_exists
answers true with no remove call), add_user is not a no-op: it issues one
remove call and one create call; and two successive add_user calls from an
empty table issue two create calls in total, not one. -/
theorem claim_C2_counterexample :
    user_exists stateC2 "aa:bb" = (true, stateC2, 0) ∧
    (add_user stateC2 "aa:bb" "pw" "5m").2 = (1, 1) ∧
    (add_user { users := [], nextId := 0 } "aa:bb" "pw" "5m").2.2 +
      (add_user (add_user { users := [], nextId := 0 } "aa:bb" "pw" "5m").1
        "aa:bb" "pw" "5m").2.2 = 2 :=
  ⟨by decide, by decide, by decide⟩

/-- C2 amended: add_user does not consult the expiry check at all; it
removes any pre-existing account of the name and then always issues exactly
one create call. Starting from a table holding at most one account of the
name, the call leaves exactly one account of the name, issues one create
call, and issues a remove call exactly when an account already existed, so
two successive calls give two create calls, not one. -/
theorem claim_C2_add_user_remove_then_create (s : MtState)
    (username password time : String)
    (hone : (s.users.filter (fun u => u.name == username)).length ≤ 1) :
    ((add_user s username password time).1.users.filter
        (fun u => u.name == username)).length = 1 ∧
    (add_user s username password time).2.2 = 1 ∧
    (s.users.filter (fun u => u.name == username) = [] →
      (add_user s username password time).2.1 = 0) ∧
    (s.users.filter (fun u => u.name == username) ≠ [] →
      (add_user s username password time).2.1 = 1) := by
  cases hf : s.users.filter (fun u => u.name == username) with
  | nil =>
    have hrem : remove_existing_user s username = (false, s, 0) := by
      simp only [remove_existing_user, hf]
    refine ⟨?_, rfl, fun _ => ?_, fun hne => absurd rfl hne⟩
    · simp only [add_user, hrem, List.filter_append, hf, List.filter_cons,
        List.filter_nil, beq_self_eq_true, if_true, List.nil_append,
        List.length_cons, List.length_nil]
    · simp only [add_user, hrem]
  | cons u rest =>
    have hrest : rest = [] := by
      cases rest with
      | nil => rfl
      | cons a l => rw [hf] at hone; simp at hone
    subst hrest
    have hrem : remove_existing_user s username =
        (true, { s with users := s.users.filter (fun v => v.id != u.id) }, 1) := by
      simp only [remove_existing_user, hf]
    have hnone :
        (s.users.filter (fun v => v.id != u.id)).filter
          (fun v => v.name == username) = [] := by
      refine List.filter_eq_nil_iff.mpr fun v hv hname => ?_
      have hv' := List.mem_filter.mp hv
      have hmem : v ∈ s.users.filter (fun u => u.name == username) :=
        List.mem_filter.mpr ⟨hv'.1, hname⟩
      rw [hf] at hmem
      have hvu : v = u := List.mem_singleton.mp hmem
      rw [hvu, bne_self_eq_false] at hv'
      exact Bool.false_ne_true hv'.2
    refine ⟨?_, rfl, fun h0 => absurd h0 (List.cons_ne_nil u []),
      fun _ => ?_⟩
    · simp only [add_user, hrem, List.filter_append, hnone, List.filter_cons,
        List.filter_nil, beq_self_eq_true, if_true, List.nil_append,
        List.length_cons, List.length_nil]
    · simp only [add_user, hrem]

/-- Witness for C2 amended at the concrete one-account state. -/
theorem claim_C2_add_user_remove_then_create_witness :
    (stateC2.users.filter (fun u => u.name == "aa:bb")).length ≤ 1 ∧
    (((add_user stateC2 "aa:bb" "pw" "5m").1.users.filter
        (fun u => u.name == "aa:bb")).length = 1 ∧
     (add_user stateC2 "aa:bb" "pw" "5m").2.2 = 1 ∧
     (stateC2.users.filter (fun u => u.name == "aa:bb") = [] →
       (add_user stateC2 "aa:bb" "pw" "5m").2.1 = 0) ∧
     (stateC2.users.filter (fun u => u.name == "aa:bb") ≠ [] →
       (add_user stateC2 "aa:bb" "pw" "5m").2.1 = 1)) :=
  ⟨by decide,
    claim_C2_add_user_remove_then_create stateC2 "aa:bb" "pw" "5m" (by decide)⟩

/-! ### Claim C5 -/

def sessC5a : MtSession := { id := some "*1", macAddress := "AA:BB:CC:DD:EE:FF" }

def sessC5b : MtSession := { id := some "*2", macAddress := "AA:BB:CC:DD:EE:FF" }

def oracleC5 : String → Option String :=
  fun sid => if sid == "*1" then some "removal failed" else none

/-- C5 counterexample: two sessions match the MAC; removing the first
raises while removing the second would succeed, yet the function answers
false having attempted only the first removal — the failure aborts the
rest of the batch, contradicting the claim that it does not. -/
theorem claim_C5_counterexample :
    remove_active_session_by_mac [sessC5a, sessC5b] "aa:bb:cc:dd:ee:ff"
      oracleC5 = (false, ["*1"]) ∧
    oracleC5 "*2" = none :=
  ⟨by decide, by decide⟩

/-- C5 amended: the function returns true when no session matches the MAC
or when every removal succeeds (sessions without an id are skipped), and
returns false when a remove call fails; such a failure aborts the removal
attempts for the remaining matching sessions in the batch. -/
theorem claim_C5_remove_sessions_by_mac (sessions : List MtSession)
    (mac : String) (oracle : String → Option String) :
    (sessions.filter (fun s => lowerChars s.macAddress == lowerChars mac) = [] →
      remove_active_session_by_mac sessions mac oracle = (true, [])) ∧
    ((∀ sess ∈ sessions.filter
          (fun s => lowerChars s.macAddress == lowerChars mac),
        ∀ sid, sess.id = some sid → oracle sid = none) →
      remove_active_session_by_mac sessions mac oracle =
        (true,
          (sessions.filter
            (fun s => lowerChars s.macAddress == lowerChars mac)).filterMap
              (fun s => s.id))) ∧
    (∀ pre f post fid,
      sessions.filter (fun s => lowerChars s.macAddress == lowerChars mac) =
        pre ++ f :: post →
      (∀ sess ∈ pre, ∀ sid, sess.id = some sid → oracle sid = none) →
      f.id = some fid → oracle fid ≠ none →
      remove_active_session_by_mac sessions mac oracle =
        (false, pre.filterMap (fun s => s.id) ++ [fid])) := by
  refine ⟨fun h => ?_, fun h => ?_, fun pre f post fid hm hpre hf hfail => ?_⟩
  · simp only [remove_active_session_by_mac, h, List.isEmpty_nil, if_true]
  · cases hf : sessions.filter
        (fun s => lowerChars s.macAddress == lowerChars mac) with
    | nil =>
      simp only [remove_active_session_by_mac, hf, List.isEmpty_nil, if_true,
        List.filterMap_nil]
    | cons a l =>
      rw [hf] at h
      simp only [remove_active_session_by_mac, hf, List.isEmpty_cons,
        Bool.false_eq_true, if_false]
      exact removeSessionsLoop_all_ok oracle (a :: l) h
  · have hne : (pre ++ f :: post).isEmpty = false := by
      cases pre <;> rfl
    simp only [remove_active_session_by_mac, hm, hne, Bool.false_eq_true,
      if_false]
    exact removeSessionsLoop_abort oracle pre f post fid hpre hf hfail

/-- Witness for C5 amended, at the concrete aborting batch. -/
theorem claim_C5_remove_sessions_by_mac_witness :
    ([sessC5a, sessC5b].filter
        (fun s => lowerChars s.macAddress == lowerChars "aa:bb:cc:dd:ee:ff") =
      [] ++ sessC5a :: [sessC5b]) ∧
    sessC5a.id = some "*1" ∧ oracleC5 "*1" ≠ none ∧
    remove_active_session_by_mac [sessC5a, sessC5b] "aa:bb:cc:dd:ee:ff"
      oracleC5 =
        (false, List.filterMap (fun s => s.id) ([] : List MtSession) ++ ["*1"]) :=
  ⟨by decide, by decide, by decide,
    (claim_C5_remove_sessions_by_mac [sessC5a, sessC5b] "aa:bb:cc:dd:ee:ff"
      oracleC5).2.2 [] sessC5a [sessC5b] "*1" (by decide)
      (fun sess h => absurd h (List.not_mem_nil sess)) (by decide) (by decide)⟩

/-! ### Command interpreter (src/app.py) -/

/-- Exception raised by a `Mikrotik.login_user` call as seen by
`execute_command`: `reAdd` models `Mikrotik.ReAddUserError`, `other` any
other exception, each with its message. -/
inductive LoginExc where
  | reAdd (msg : String)
  | other (msg : String)
deriving DecidableEq, Repr

/-- Message of a raised login exception, as produced by `str(e)`. -/
def LoginExc.message : LoginExc → String
  | reAdd m => m
  | other m => m

/-- Behaviour of the session manager as seen by `execute_command`: the
outcome of the k-th `login_user` call and of the k-th `add_user` call made
while executing one command (`none` is success, `some` a raised exception).
This plays the role of the mocked session manager of the retry tests. -/
structure RouterOracle where
  loginOutcome : Nat → Option LoginExc
  addOutcome : Nat → Option String

/-- Arguments of the session-manager calls made while executing one
command, in order: `login_user(mac, ip)` calls and
`add_user(username, password, time)` calls. -/
structure CallLog where
  loginCalls : List (String × String)
  addCalls : List (String × String × Option String)
deriving DecidableEq, Repr

/-- Log of a command execution that never reached the session manager. -/
def emptyLog : CallLog := { loginCalls := [], addCalls := [] }

/-- Tag of the result dict returned by `execute_command`. -/
inductive Status where
  | success
  | error
deriving DecidableEq, Repr

/-- Result dict `{"status": ..., "message": ...}` of `execute_command`. -/
structure CommandResult where
  status : Status
  message : String
deriving DecidableEq, Repr

/-- One command as carried in a fetched record: its `type` and `params`
mapping (a key absent from the dict reads as `None`). -/
structure Command where
  type : Option String
  params : List (String × String)
deriving DecidableEq, Repr

/-- Models `command_params.get(key)`. -/
def getParam (cmd : Command) (key : String) : Option String :=
  (cmd.params.find? (fun kv => kv.1 == key)).map (fun kv => kv.2)

/-- Python truthiness of an optional string parameter, as tested by
`all([...])` at src/app.py:47 and src/app.py:61: `None` and the empty
string are falsy. -/
def truthy : Option String → Bool
  | none => false
  | some s => s != ""

/-- Value produced by the interpreter body before the boundary handler:
either a returned result dict or a raised exception's message. -/
inductive PyResult (α : Type) where
  | ok (a : α)
  | raised (msg : String)
deriving DecidableEq, Repr

/-- Body of `execute_command` (src/app.py:37-79), the code inside the
boundary `try`: dispatch on the command type; check the required
parameters by truthiness (`username`, `password` and the key `time` for
add_user; `mac` and `ip` for login_user); run the session-manager calls
against the oracle; for login_user, catch `ReAddUserError` from the first
login, re-add the user with `(mac, mac, time)` and retry the login once,
any exception of the retry (or of the re-add) propagating outwards. -/
def execute_command_body (cmd : Command) (o : RouterOracle) :
    PyResult CommandResult × CallLog :=
  match cmd.type with
  | some t =>
    if t = "add_user" then
      let username := getParam cmd "username"
      let password := getParam cmd "password"
      let time_limit := getParam cmd "time"
      if truthy username ∧ truthy password ∧ truthy time_limit then
        let log : CallLog :=
          { loginCalls := [],
            addCalls := [(username.getD "", password.getD "", time_limit)] }
        match o.addOutcome 0 with
        | none =>
          (.ok { status := .success,
                 message := "User " ++ username.getD "" ++
                   " added successfully" }, log)
        | some m => (.raised m, log)
      else
        (.ok { status := .error,
               message := "Missing required parameters for add_user" },
         emptyLog)
    else if t = "login_user" then
      let mac := getParam cmd "mac"
      let ip := getParam cmd "ip"
      let time := getParam cmd "time"
      if truthy mac ∧ truthy ip then
        let m := mac.getD ""
        let i := ip.getD ""
        match o.loginOutcome 0 with
        | none =>
          (.ok { status := .success,
                 message := "User " ++ m ++ " logged in successfully" },
           { loginCalls := [(m, i)], addCalls := [] })
        | some (.other em) =>
          (.raised em, { loginCalls := [(m, i)], addCalls := [] })
        | some (.reAdd _) =>
          match o.addOutcome 0 with
          | some em =>
            (.raised em,
             { loginCalls := [(m, i)], addCalls := [(m, m, time)] })
          | none =>
            match o.loginOutcome 1 with
            | none =>
              (.ok { status := .success,
                     message := "User " ++ m ++ " logged in successfully" },
               { loginCalls := [(m, i), (m, i)], addCalls := [(m, m, time)] })
            | some e =>
              (.raised e.message,
               { loginCalls := [(m, i), (m, i)], addCalls := [(m, m, time)] })
      else
        (.ok { status := .error,
               message := "Missing required parameters for login_user" },
         emptyLog)
    else
      (.ok { status := .error, message := "Unknown command type: " ++ t },
       emptyLog)
  | none =>
    (.ok { status := .error, message := "Unknown command type: None" },
     emptyLog)

/-- Models `execute_command` (src/app.py:35-84): the body wrapped in the
boundary `except Exception` handler, which converts any raised exception
into an error result carrying the exception's message. -/
def execute_command (cmd : Command) (o : RouterOracle) :
    CommandResult × CallLog :=
  match execute_command_body cmd o with
  | (.ok r, log) => (r, log)
  | (.raised m, log) => ({ status := .error, message := m }, log)

/-- Oracle whose every session-manager call succeeds. -/
def oracleOk : RouterOracle :=
  { loginOutcome := fun _ => none, addOutcome := fun _ => none }

/-! ### Poll iteration (src/app.py:102-143) -/

/-- One fetched command record `{id, data}`; `id` may be absent. -/
structure PolledCommand where
  id : Option Int
  data : Command
deriving DecidableEq, Repr

/-- Shape of the value produced by `response.json().get('commands', [])`
as discriminated by the `isinstance(commands, list)` check at
src/app.py:120: a proper list of records, a mapping, or anything else. -/
inductive FetchedBatch where
  | list (cmds : List PolledCommand)
  | mapping (fields : List (String × String))
  | other (description : String)
deriving Repr

/-- The `isinstance(commands, list)` check. -/
def FetchedBatch.isList : FetchedBatch → Bool
  | .list _ => true
  | _ => false

/-- Sort key `x.get('id', 0)` (src/app.py:123). -/
def pollSortKey (c : PolledCommand) : Int := c.id.getD 0

/-- Stable insertion used to model Python `sorted(commands, key=...)`. -/
def insertById (c : PolledCommand) :
    List PolledCommand → List PolledCommand
  | [] => [c]
  | d :: ds =>
    if pollSortKey c < pollSortKey d then c :: d :: ds
    else d :: insertById c ds

/-- Models `sorted(commands, key=lambda x: x.get('id', 0))`. -/
def sortById (l : List PolledCommand) : List PolledCommand :=
  l.foldr insertById []

/-- Models the batch-processing part of one `poll_command` iteration
(src/app.py:108-136): when the fetched batch is a list, sort it by id and
execute each command in order, reporting each result keyed by that
command's id; a batch of any other shape is logged and skipped, with no
command executed and no report sent. The oracle gives the session-manager
behaviour at each command position. Result: (data of the commands
executed, reports sent). -/
def poll_iteration (batch : FetchedBatch) (o : Nat → RouterOracle) :
    List Command × List (Option Int × CommandResult) :=
  match batch with
  | .list cmds =>
    let sorted := sortById cmds
    (sorted.map (fun c => c.data),
     sorted.enum.map (fun p => (p.2.id, (execute_command p.2.data (o p.1)).1)))
  | _ => ([], [])

/-! ### Claim C1 -/

/-- C1: for a login_user command with usable mac and ip whose first login
raises ReAddUserError, the interpreter makes exactly one add_user call,
with arguments (mac, mac, time); never more than two login calls happen;
and when the re-add succeeds the login is retried exactly once (two login
calls in total), returning success when the retry succeeds and an error
result when the retry raises anything, with no third attempt. -/
theorem claim_C1_login_retry_once (cmd : Command) (o : RouterOracle)
    (msg : String)
    (htype : cmd.type = some "login_user")
    (hmac : truthy (getParam cmd "mac") = true)
    (hip : truthy (getParam cmd "ip") = true)
    (hfirst : o.loginOutcome 0 = some (.reAdd msg)) :
    (execute_command cmd o).2.addCalls =
      [((getParam cmd "mac").getD "", (getParam cmd "mac").getD "",
        getParam cmd "time")] ∧
    (execute_command cmd o).2.loginCalls.length ≤ 2 ∧
    (o.addOutcome 0 = none →
      (execute_command cmd o).2.loginCalls =
        [((getParam cmd "mac").getD "", (getParam cmd "ip").getD ""),
         ((getParam cmd "mac").getD "", (getParam cmd "ip").getD "")] ∧
      (o.loginOutcome 1 = none →
        (execute_command cmd o).1 =
          { status := .success,
            message := "User " ++ (getParam cmd "mac").getD "" ++
              " logged in successfully" }) ∧
      (∀ e, o.loginOutcome 1 = some e →
        (execute_command cmd o).1.status = .error)) := by
  simp only [execute_command, execute_command_body, htype]
  rw [if_neg (show ¬("login_user" = "add_user") by decide), if_pos trivial,
    if_pos (And.intro hmac hip)]
  simp only [hfirst]
  cases hadd : o.addOutcome 0 with
  | some em =>
    simp only [hadd]
    exact ⟨trivial, (by decide : (1 : Nat) ≤ 2), fun h => nomatch h⟩
  | none =>
    simp only [hadd]
    cases hr : o.loginOutcome 1 with
    | none =>
      simp only [hr]
      exact ⟨trivial, (by decide : (2 : Nat) ≤ 2),
        fun _ => ⟨trivial, fun _ => trivial, fun e he => nomatch he⟩⟩
    | some e0 =>
      simp only [hr]
      exact ⟨trivial, (by decide : (2 : Nat) ≤ 2),
        fun _ => ⟨trivial, fun h => Option.noConfusion h, fun e _ => trivial⟩⟩

def cmdC1 : Command :=
  { type := some "login_user",
    params := [("mac", "AA:BB"), ("ip", "10.0.0.5"), ("time", "5m")] }

def oracleC1 : RouterOracle :=
  { loginOutcome := fun k => if k = 0 then some (.reAdd "Readd user") else none,
    addOutcome := fun _ => none }

/-- Witness for C1: a concrete command and oracle where the first login
raises ReAddUserError, the re-add succeeds and the retried login succeeds. -/
theorem claim_C1_login_retry_once_witness :
    truthy (getParam cmdC1 "mac") = true ∧
    truthy (getParam cmdC1 "ip") = true ∧
    oracleC1.loginOutcome 0 = some (.reAdd "Readd user") ∧
    ((execute_command cmdC1 oracleC1).2.addCalls =
        [((getParam cmdC1 "mac").getD "", (getParam cmdC1 "mac").getD "",
          getParam cmdC1 "time")] ∧
      (execute_command cmdC1 oracleC1).2.loginCalls.length ≤ 2 ∧
      (oracleC1.addOutcome 0 = none →
        (execute_command cmdC1 oracleC1).2.loginCalls =
          [((getParam cmdC1 "mac").getD "", (getParam cmdC1 "ip").getD ""),
           ((getParam cmdC1 "mac").getD "", (getParam cmdC1 "ip").getD "")] ∧
        (oracleC1.loginOutcome 1 = none →
          (execute_command cmdC1 oracleC1).1 =
            { status := .success,
              message := "User " ++ (getParam cmdC1 "mac").getD "" ++
                " logged in successfully" }) ∧
        (∀ e, oracleC1.loginOutcome 1 = some e →
          (execute_command cmdC1 oracleC1).1.status = .error))) :=
  ⟨by decide, by decide, rfl,
    claim_C1_login_retry_once cmdC1 oracleC1 "Readd user" rfl (by decide)
      (by decide) rfl⟩

/-! ### Claim C6 -/

/-- C6: execute_command always yields a result tagged success or error; a
raised exception from the body is caught at the boundary and becomes an
error result carrying the exception's message; an unrecognized command
type (including an absent one) yields an error result naming it. -/
theorem claim_C6_interpreter_boundary (cmd : Command) (o : RouterOracle) :
    ((execute_command cmd o).1.status = .success ∨
      (execute_command cmd o).1.status = .error) ∧
    (∀ m log, execute_command_body cmd o = (.raised m, log) →
      execute_command cmd o = ({ status := .error, message := m }, log)) ∧
    (∀ t, cmd.type = some t → t ≠ "add_user" → t ≠ "login_user" →
      (execute_command cmd o).1 =
        { status := .error, message := "Unknown command type: " ++ t }) ∧
    (cmd.type = none →
      (execute_command cmd o).1 =
        { status := .error, message := "Unknown command type: None" }) := by
  refine ⟨?_, fun m log h => ?_, fun t ht h1 h2 => ?_, fun hn => ?_⟩
  · cases hs : (execute_command cmd o).1.status
    · exact Or.inl rfl
    · exact Or.inr rfl
  · simp only [execute_command, h]
  · simp only [execute_command, execute_command_body, ht]
    rw [if_neg h1, if_neg h2]
  · simp only [execute_command, execute_command_body, hn]

def cmdC6 : Command := { type := some "reboot", params := [] }

/-- Witness for C6 at a concrete unrecognized command type. -/
theorem claim_C6_interpreter_boundary_witness :
    cmdC6.type = some "reboot" ∧
    (execute_command cmdC6 oracleOk).1 =
      { status := .error, message := "Unknown command type: " ++ "reboot" } :=
  ⟨rfl, (claim_C6_interpreter_boundary cmdC6 oracleOk).2.2.1 "reboot" rfl
    (by decide) (by decide)⟩

/-! ### Claim C8 -/

def cmdC8 : Command :=
  { type := some "add_user",
    params := [("username", "x"), ("password", "y"), ("time_limit", "5m")] }

/-- C8 counterexample: an add_user command supplying the limit only under
the key time_limit is rejected as missing parameters, with no session
manager call — the interpreter reads the limit only under the key time. -/
theorem claim_C8_counterexample :
    execute_command cmdC8 oracleOk =
      ({ status := .error,
         message := "Missing required parameters for add_user" }, emptyLog) := by
  decide

/-- C8 amended: execute for an add_user command requires username,
password and a limit under the single key time (the key time_limit is
never read); when any of the three is missing or falsy it returns the
missing-parameters error without any session-manager call, and otherwise
it issues exactly one add_user call with the given values. -/
theorem claim_C8_add_user_time_key (cmd : Command) (o : RouterOracle)
    (htype : cmd.type = some "add_user") :
    (¬(truthy (getParam cmd "username") = true ∧
       truthy (getParam cmd "password") = true ∧
       truthy (getParam cmd "time") = true) →
      execute_command cmd o =
        ({ status := .error,
           message := "Missing required parameters for add_user" },
         emptyLog)) ∧
    ((truthy (getParam cmd "username") = true ∧
      truthy (getParam cmd "password") = true ∧
      truthy (getParam cmd "time") = true) →
      (execute_command cmd o).2 =
        { loginCalls := [],
          addCalls := [((getParam cmd "username").getD "",
            (getParam cmd "password").getD "", getParam cmd "time")] }) := by
  refine ⟨fun h => ?_, fun h => ?_⟩ <;>
    simp only [execute_command, execute_command_body, htype]
  · rw [if_pos trivial, if_neg h]
  · rw [if_pos trivial, if_pos h]
    cases hadd : o.addOutcome 0 <;> simp only [hadd]

/-- Witness for C8 amended, at the concrete command of the counterexample. -/
theorem claim_C8_add_user_time_key_witness :
    cmdC8.type = some "add_user" ∧
    ¬(truthy (getParam cmdC8 "username") = true ∧
      truthy (getParam cmdC8 "password") = true ∧
      truthy (getParam cmdC8 "time") = true) ∧
    execute_command cmdC8 oracleOk =
      ({ status := .error,
         message := "Missing required parameters for add_user" }, emptyLog) :=
  ⟨rfl, by decide,
    (claim_C8_add_user_time_key cmdC8 oracleOk rfl).1 (by decide)⟩

/-! ### Claim C10 -/

/-- C10: required parameters are tested by truthiness, not key presence:
when a required parameter is present but equal to the empty string, the
interpreter returns the missing-parameters error result and makes no
session-manager call, for add_user and login_user alike. -/
theorem claim_C10_truthiness_not_presence (cmd : Command) (o : RouterOracle) :
    (cmd.type = some "add_user" →
      (getParam cmd "username" = some "" ∨ getParam cmd "password" = some "" ∨
        getParam cmd "time" = some "") →
      execute_command cmd o =
        ({ status := .error,
           message := "Missing required parameters for add_user" },
         emptyLog)) ∧
    (cmd.type = some "login_user" →
      (getParam cmd "mac" = some "" ∨ getParam cmd "ip" = some "") →
      execute_command cmd o =
        ({ status := .error,
           message := "Missing required parameters for login_user" },
         emptyLog)) := by
  constructor
  · intro htype hor
    have hmiss : ¬(truthy (getParam cmd "username") = true ∧
        truthy (getParam cmd "password") = true ∧
        truthy (getParam cmd "time") = true) := by
      rintro ⟨h1, h2, h3⟩
      rcases hor with h | h | h
      · rw [h] at h1; exact absurd h1 (by decide)
      · rw [h] at h2; exact absurd h2 (by decide)
      · rw [h] at h3; exact absurd h3 (by decide)
    simp only [execute_command, execute_command_body, htype]
    rw [if_pos trivial, if_neg hmiss]
  · intro htype hor
    have hmiss : ¬(truthy (getParam cmd "mac") = true ∧
        truthy (getParam cmd "ip") = true) := by
      rintro ⟨h1, h2⟩
      rcases hor with h | h
      · rw [h] at h1; exact absurd h1 (by decide)
      · rw [h] at h2; exact absurd h2 (by decide)
    simp only [execute_command, execute_command_body, htype]
    rw [if_neg (show ¬("login_user" = "add_user") by decide), if_pos trivial,
      if_neg hmiss]

def cmdC10 : Command :=
  { type := some "login_user", params := [("mac", "AA:BB"), ("ip", "")] }

/-- Witness for C10: a login_user command whose ip key is present but
empty is rejected without any session-manager call. -/
theorem claim_C10_truthiness_not_presence_witness :
    cmdC10.type = some "login_user" ∧ getParam cmdC10 "ip" = some "" ∧
    execute_command cmdC10 oracleOk =
      ({ status := .error,
         message := "Missing required parameters for login_user" },
       emptyLog) :=
  ⟨rfl, by decide,
    (claim_C10_truthiness_not_presence cmdC10 oracleOk).2 rfl
      (Or.inr (by decide))⟩

/-! ### Claim C7 -/

/-- C7: a fetched batch that is not a list is skipped whole — no command
is executed and no status report is produced in that iteration. -/
theorem claim_C7_malformed_batch (batch : FetchedBatch)
    (o : Nat → RouterOracle) (h : batch.isList = false) :
    poll_iteration batch o = ([], []) := by
  cases batch with
  | list cmds => exact nomatch h
  | mapping fields => rfl
  | other d => rfl

/-- Witness for C7: a mapping-shaped batch yields no execution and no
report. -/
theorem claim_C7_malformed_batch_witness :
    (FetchedBatch.mapping [("detail", "unexpected mapping")]).isList = false ∧
    poll_iteration (FetchedBatch.mapping [("detail", "unexpected mapping")])
      (fun _ => oracleOk) = ([], []) :=
  ⟨rfl, claim_C7_malformed_batch
    (FetchedBatch.mapping [("detail", "unexpected mapping")])
    (fun _ => oracleOk) rfl⟩

end IspLocal
